import Mathlib

/-!
Shallow embedding of the change-impact analyzer of
pytest_smartcollect (src/pytest_smartcollect/helpers.py).

Conventions of the embedding:
* Python dicts with string keys are insertion-ordered association lists.
* Python half-open ranges are pairs (start, stop).
* File reading plus ast parsing (SmartCollector.read_file followed by
  ModuleInfoExtractor.extract) is the boundary of the embedding: a file
  system is a map from a path to an optional PyModule, the already
  extracted module information together with the line count; none models
  an unreadable or unparseable file, in which case read_file raises.
* Fallible Python code is modelled with Except PyErr.
* The dynamic import machinery (importlib.import_module, getattr, dir)
  used on lines 483-521 of helpers.py is runtime behaviour of the host
  interpreter; it is modelled by an oracle Env.resolveImport which, for
  one import specification, either raises or yields the
  (imported_name, file) pairs that the loop body feeds to
  add_key_and_value_to_linked_list.
-/

namespace SmartCollect

/-- Python exceptions raised by the analyzer. -/
inductive PyErr where
  | nameError (name : String)
  | dependencyCycle (chain : List String)
  | readError (path : String)
  | assertionError
  | typeError
  | valueError (msg : String)
  | indexError
  | noGitRepo
  | importError (moduleName : String)
deriving Repr, DecidableEq

/-- A Python dict mapping a string key to a list of strings, kept in
insertion order (the change_map, unchanged_map, visited_map and
imported_names_and_modules dicts of helpers.py). -/
abbrev LinkedMap := List (String × List String)

/-- m.keys(), in insertion order. -/
def mapKeys (m : LinkedMap) : List String := m.map Prod.fst

/-- Dict lookup m[k].  Keys are unique; the source only indexes after a
membership test, so the [] default for a missing key is never observed. -/
def mapGet : LinkedMap → String → List String
  | [], _ => []
  | (k0, vs) :: rest, k => if k0 = k then vs else mapGet rest k

/-- The list mutation m[key].append(member) guarded by a membership test
(helpers.py line 410-411). -/
def appendValue (value : String) (vs : List String) : List String :=
  if value ∈ vs then vs else vs ++ [value]

/-- In-place update of the unique entry of the dict holding the key. -/
def updateKey (key value : String) : LinkedMap → LinkedMap
  | [] => []
  | (k0, vs) :: rest =>
    if k0 = key then (k0, appendValue value vs) :: rest
    else (k0, vs) :: updateKey key value rest

/-- SmartCollector.add_key_and_value_to_linked_list (helpers.py 404-411):
a new key is bound to the one-element list [value]; for an existing key
the value is appended only when not already present. -/
def add_key_and_value_to_linked_list (key value : String) (m : LinkedMap) : LinkedMap :=
  if key ∈ mapKeys m then updateKey key value m
  else m ++ [(key, [value])]

/-- One top-level member record produced by ModuleInfoExtractor:
declaration line, declared uses (call targets, base classes, decorators,
right-hand-side names), and for functions the argument names. -/
structure MemberInfo where
  lineno : Nat
  uses : List String
  args : List String := []
deriving Repr, DecidableEq

/-- One import specification (module name, imported names, relative
level) as recorded by visit_Import / visit_ImportFrom
(helpers.py 64-69); moduleName is none for a purely relative import. -/
structure ImportSpec where
  moduleName : Option String
  importedNames : List String
  level : Nat
deriving Repr, DecidableEq

/-- The result of read_file plus ModuleInfoExtractor.extract on one
file: members grouped as in the info dict (helpers.py 50-56), the import
list, and the line count returned by read_file. -/
structure PyModule where
  functions : List (String × MemberInfo)
  classes : List (String × MemberInfo)
  assignments : List (String × MemberInfo)
  imports : List ImportSpec
  linecount : Nat
deriving Repr

/-- Membership of a line in a union of half-open ranges (the set built
from changed_module.changed_lines on helpers.py 370-372). -/
def rangesMember (rs : List (Nat × Nat)) (n : Nat) : Bool :=
  rs.any (fun r => r.1 ≤ n && n < r.2)

/-- Stable insertion placing the new element after existing elements
with a smaller or equal line number. -/
def insertByLineno (x : String × Nat) : List (String × Nat) → List (String × Nat)
  | [] => [x]
  | y :: ys => if y.2 ≤ x.2 then y :: insertByLineno x ys else x :: y :: ys

/-- Python sorted(..., key=lambda x: x[1]) on helpers.py 367: a stable
sort by line number. -/
def sortByLineno (l : List (String × Nat)) : List (String × Nat) :=
  l.foldl (fun acc x => insertByLineno x acc) []

/-- Iterating a Python string yields its characters; list.extend over a
string therefore appends one-character strings (helpers.py 383). -/
def stringChars (s : String) : List String :=
  s.data.map (fun c => String.mk [c])

/-- The direct children list of helpers.py 357-365: classes, then
functions, then assignments, each as (name, lineno). -/
def directChildren (m : PyModule) : List (String × Nat) :=
  m.classes.map (fun p => (p.1, p.2.lineno)) ++
  m.functions.map (fun p => (p.1, p.2.lineno)) ++
  m.assignments.map (fun p => (p.1, p.2.lineno))

/-- SmartCollector.find_changed_members (helpers.py 347-385) after the
file has been read and extracted: sort the direct children by line
number; the span of a child runs to the next declaration line, the last
span ends at the read_file line count; a child whose span intersects the
changed-line set contributes via changed_members.extend(node_name),
which appends the characters of the name. -/
def find_changed_members (m : PyModule) (changed_lines : List (Nat × Nat)) : List String :=
  let direct_children := sortByLineno (directChildren m)
  direct_children.enum.foldl
    (fun acc p =>
      match p with
      | (idx, (node_name, lineno)) =>
        let hi := match direct_children.get? (idx + 1) with
          | some c => c.2
          | none => m.linecount
        if (List.range' lineno (hi - lineno)).any (rangesMember changed_lines)
        then acc ++ stringChars node_name
        else acc)
    []

/-- Python string splitting on a single separator character, keeping
empty parts (str.split with an explicit separator). -/
def splitChar (c : Char) : List Char → List (List Char)
  | [] => [[]]
  | x :: rest =>
    let r := splitChar c rest
    if x = c then [] :: r
    else
      match r with
      | [] => [[x]]
      | h :: t => (x :: h) :: t

/-- Python substring containment (the in operator on strings): the empty
needle is contained everywhere. -/
def containsSub (hay needle : List Char) : Bool :=
  match hay with
  | [] => needle.isEmpty
  | _ :: rest => needle.isPrefixOf hay || containsSub rest needle

/-- Longest common component prefix of two split paths. -/
def commonComponents : List (List Char) → List (List Char) → List (List Char)
  | a :: as, b :: bs => if a = b then a :: commonComponents as bs else []
  | _, _ => []

/-- os.path.commonpath([a, b]) modelled as the longest common prefix of
the slash-separated components, joined back with slashes. -/
def commonpath (a b : String) : String :=
  String.mk (List.intercalate ['/'] (commonComponents (splitChar '/' a.data) (splitChar '/' b.data)))

/-- SmartCollector.file_in_project (helpers.py 397-402): false when dir
is not a substring of os.path.commonpath([dir, f]), true otherwise. -/
def file_in_project (dir f : String) : Bool :=
  containsSub (commonpath dir f).data dir.data

/-- The mutable state threaded through dependencies_changed: the three
dicts passed by reference plus the chain list, all mutated in place by
the Python code. -/
structure DCState where
  changeMap : LinkedMap
  unchangedMap : LinkedMap
  visitedMap : LinkedMap
  chain : List String
deriving Repr

/-- The ambient process environment of one analysis run: the result of
find_git_repo_root(rootdir) (a file-system walk, helpers.py 198-207),
the readable project files (read_file plus extract), the interpreter
list sys.builtin_module_names, and the dynamic import machinery of
helpers.py 487-521 as an oracle yielding the (imported_name, file) pairs
added to imported_names_and_modules, or an exception. -/
structure Env where
  gitRoot : Except PyErr String
  fs : String → Option PyModule
  builtinModules : List String
  resolveImport : String → ImportSpec → Except PyErr (List (String × String))

/-- The import-processing loop of dependencies_changed
(helpers.py 483-521): builtin modules are skipped (line 484-485); a
purely relative import asserts a positive level (line 488); the dynamic
resolution of one import either raises or produces pairs fed to
add_key_and_value_to_linked_list (lines 517-521). -/
def importLoop (env : Env) (path : String) : List ImportSpec → LinkedMap → Except PyErr LinkedMap
  | [], acc => .ok acc
  | spec :: rest, acc =>
    match spec.moduleName with
    | some module_name =>
      if module_name ∈ env.builtinModules then importLoop env path rest acc
      else
        match env.resolveImport path spec with
        | .error e => .error e
        | .ok pairs =>
          importLoop env path rest
            (pairs.foldl (fun a p => add_key_and_value_to_linked_list p.1 p.2 a) acc)
    | none =>
      if spec.level = 0 then .error .assertionError
      else
        match env.resolveImport path spec with
        | .error e => .error e
        | .ok pairs =>
          importLoop env path rest
            (pairs.foldl (fun a p => add_key_and_value_to_linked_list p.1 p.2 a) acc)

/-- The body of SmartCollector.dependencies_changed (helpers.py 415-567)
after find_git_repo_root succeeded.  Faithful control flow:
* line 415: append path::object_name to the chain;
* lines 418-419: raise the dependency-cycle exception when the pair is
  in visited_map and the appended key occurs more than once in chain;
* line 422: otherwise record the pair in visited_map;
* lines 424-425: a change_map hit returns True (the chain is not
  popped);
* lines 427-429: an unchanged_map hit pops the chain and returns False;
* lines 431-435: a file outside the project is memoized unchanged and
  recorded visited again, the chain is popped, False is returned;
* line 437: assert that the pair was recorded visited;
* line 440: read_file raises when the file is unreadable;
* lines 445-447: the locally changed members of the file;
* lines 483-521: the import loop, which may raise;
* line 524: the name BaseClassNameExtractor is referenced but defined
  nowhere in the module, so execution always raises NameError here;
  every statement of lines 525-567 (base-class recursion, the used-names
  loop with its self-reference exclusion, the final unchanged
  memoization) is unreachable. -/
def dependencies_changed_body (env : Env) (git_repo_root path object_name : String) (st : DCState) :
    DCState × Except PyErr Bool :=
  let key := path ++ "::" ++ object_name
  let st1 : DCState := { st with chain := st.chain ++ [key] }
  if path ∈ mapKeys st1.visitedMap ∧ object_name ∈ mapGet st1.visitedMap path ∧ 1 < st1.chain.count key then
    (st1, .error (.dependencyCycle st1.chain))
  else
    let st2 : DCState := { st1 with visitedMap := add_key_and_value_to_linked_list path object_name st1.visitedMap }
    if path ∈ mapKeys st2.changeMap ∧ object_name ∈ mapGet st2.changeMap path then
      (st2, .ok true)
    else if path ∈ mapKeys st2.unchangedMap ∧ object_name ∈ mapGet st2.unchangedMap path then
      ({ st2 with chain := st2.chain.dropLast }, .ok false)
    else if file_in_project git_repo_root path = false then
      let st3 : DCState := { st2 with
        unchangedMap := add_key_and_value_to_linked_list path object_name st2.unchangedMap,
        visitedMap := add_key_and_value_to_linked_list path object_name st2.visitedMap }
      ({ st3 with chain := st3.chain.dropLast }, .ok false)
    else if object_name ∈ mapGet st2.visitedMap path then
      match env.fs path with
      | none => (st2, .error (.readError path))
      | some module_info =>
        let locally_changed :=
          if path ∈ mapKeys st2.changeMap then mapGet st2.changeMap path else []
        match importLoop env path module_info.imports [] with
        | .error e => (st2, .error e)
        | .ok imported_names_and_modules =>
          let _ := locally_changed
          let _ := imported_names_and_modules
          (st2, .error (.nameError "BaseClassNameExtractor"))
    else
      (st2, .error .assertionError)

/-- SmartCollector.dependencies_changed (helpers.py 413-567): line 414
first resolves the git repository root, which raises when no repository
encloses rootdir; then the body runs. -/
def dependencies_changed (env : Env) (path object_name : String) (st : DCState) :
    DCState × Except PyErr Bool :=
  match env.gitRoot with
  | .error e => (st, .error e)
  | .ok git_repo_root => dependencies_changed_body env git_repo_root path object_name st

/-- Python str.split with a multi-character separator, keeping empty
parts; fuel-driven recursion, the fuel starts above the haystack length
so it never runs out. -/
def splitSubAux (sep : List Char) : Nat → List Char → List Char → List (List Char)
  | 0, hay, acc => [acc.reverse ++ hay]
  | fuel + 1, hay, acc =>
    if (!sep.isEmpty) && sep.isPrefixOf hay then
      acc.reverse :: splitSubAux sep fuel (hay.drop sep.length) []
    else
      match hay with
      | [] => [acc.reverse]
      | c :: rest => splitSubAux sep fuel rest (c :: acc)

/-- Python hay.split(sep) for a string separator. -/
def splitSub (hay sep : List Char) : List (List Char) :=
  splitSubAux sep (hay.length + 1) hay []

/-- Python str.strip(): drop leading and trailing whitespace. -/
def stripChars (s : List Char) : List Char :=
  ((s.dropWhile Char.isWhitespace).reverse.dropWhile Char.isWhitespace).reverse

/-- Python s.replace(c, two-character empty string): remove every
occurrence of the character. -/
def removeChar (c : Char) (s : List Char) : List Char :=
  s.filter (fun x => x ≠ c)

/-- Python int() on the digit strings appearing in hunk headers; a
non-digit or empty argument raises ValueError. -/
def pyInt (s : List Char) : Except PyErr Nat :=
  if (!s.isEmpty) && s.all Char.isDigit then
    .ok (s.foldl (fun n c => 10 * n + (c.toNat - 48)) 0)
  else .error (.valueError (String.mk s))

/-- helpers.py 256: the first line of the diff text, split on the
at-at marker, element [1] (IndexError when absent), stripped, with every
plus sign and minus sign removed. -/
def diff_lines_spec (diff_text : String) : Except PyErr String :=
  let first_line := (splitChar '\n' diff_text.data).headD []
  match (splitSub first_line ['@', '@']).get? 1 with
  | none => .error .indexError
  | some p => .ok (String.mk (removeChar '-' (removeChar '+' (stripChars p))))

/-- The modified-file branch of SmartCollector.find_changed_files
(helpers.py 272-296) applied to the already computed diff_lines_spec:
split on a space; with fewer than two numeric pairs the source unpacks
ranges[0].split(sep) into two string variables (ValueError unless
exactly two parts) and then calls range on strings (TypeError); with two
pairs each pair is int-parsed, a missing count defaults to 0, and the
two half-open ranges (start, start + count) are produced. -/
def modified_changed_lines (spec : String) : Except PyErr (List (Nat × Nat)) :=
  let ranges := splitChar ' ' spec.data
  if ranges.length < 2 then
    match splitChar ',' (ranges.headD []) with
    | [_, _] => .error .typeError
    | _ => .error (.valueError (String.mk (ranges.headD [])))
  else do
    let preimage ← (splitChar ',' (ranges.headD [])).mapM pyInt
    let preimage_start := preimage.headD 0
    let preimage_count := if 1 < preimage.length then preimage.getD 1 0 else 0
    let postimage ← (splitChar ',' (ranges.getD 1 [])).mapM pyInt
    let postimage_start := postimage.headD 0
    let postimage_count := if 1 < postimage.length then postimage.getD 1 0 else 0
    .ok [(preimage_start, preimage_start + preimage_count),
         (postimage_start, postimage_start + postimage_count)]

/-- The changed-line ranges find_changed_files derives for one modified
file from its raw diff text (helpers.py 256 and 268-296). -/
def modified_file_ranges (diff_text : String) : Except PyErr (List (Nat × Nat)) := do
  let spec ← diff_lines_spec diff_text
  modified_changed_lines spec

/-- helpers.py 574-575: sys.path.insert(0, p) for each discovered
package path, in order. -/
def push_packages (packages syspath : List String) : List String :=
  packages.foldl (fun sp p => p :: sp) syspath

/-- SmartCollector._revert_syspath (helpers.py 738-740): pop index 0
once per discovered package; returns the popped elements in pop order
together with the remaining list.  (Python list.pop(0) on an empty list
raises IndexError; run never reaches that case because it pushed the
same number of entries.) -/
def pop_front_n : Nat → List String → List String × List String
  | 0, sp => ([], sp)
  | _ + 1, [] => ([], [])
  | n + 1, x :: rest =>
    let r := pop_front_n n rest
    (x :: r.1, r.2)

/-- The module-search-path effect of SmartCollector.run
(helpers.py 569-740): the package paths are pushed before the try block;
the normal path calls _revert_syspath on line 729, and every exception
of the body is caught on line 731 and routed through _handle_exception,
which calls _revert_syspath before re-raising (lines 734-736).  The body
of the try block never touches sys.path, so its outcome is abstracted to
an Except value. -/
def run_syspath (packages syspath : List String) (body : Except PyErr Unit) :
    Except PyErr Unit × List String :=
  let pushed := push_packages packages syspath
  match body with
  | .ok () => (.ok (), (pop_front_n packages.length pushed).2)
  | .error e => (.error e, (pop_front_n packages.length pushed).2)

/-- The spec scenario module a.py: def f(): pass on line 1 and
def g(): f() on line 3.  ModuleInfoExtractor records f with no uses and
g with the call target f (visit_FunctionDef and _process_block_body,
helpers.py 100-150); read_file reports 3 lines. -/
def aPyModule : PyModule :=
  { functions := [("f", { lineno := 1, uses := [] }), ("g", { lineno := 3, uses := ["f"] })],
    classes := [], assignments := [], imports := [], linecount := 3 }

/-- Environment for the a.py scenario: the repository root is /repo and
the only readable file is /repo/a.py. -/
def scenarioEnvA : Env :=
  { gitRoot := .ok "/repo",
    fs := fun p => if p = "/repo/a.py" then some aPyModule else none,
    builtinModules := [],
    resolveImport := fun _ _ => .ok [] }

/-- A second environment with the same repository root but a file system
where nothing is readable; used to show that memoized and pruned queries
never consult the file system. -/
def scenarioEnvNoFs : Env :=
  { gitRoot := .ok "/repo",
    fs := fun _ => none,
    builtinModules := [],
    resolveImport := fun _ _ => .ok [] }

/-- The walker state seeded by run for the a.py scenario: the locator
marked f as locally changed in /repo/a.py (helpers.py 607-609), all
other dicts and the chain are fresh (helpers.py 685 and 702-703). -/
def scenarioStateA : DCState :=
  { changeMap := [("/repo/a.py", ["f"])], unchangedMap := [], visitedMap := [], chain := [] }

/-- A fresh walker state: empty memo dicts, empty visited dict, empty
chain. -/
def emptyState : DCState :=
  { changeMap := [], unchangedMap := [], visitedMap := [], chain := [] }

/-- A module with a single two-character top-level function ab declared
on line 1 of a 3-line file. -/
def twoCharModule : PyModule :=
  { functions := [("ab", { lineno := 1, uses := [] })],
    classes := [], assignments := [], imports := [], linecount := 3 }

/-- Two functions that call each other exclusively: def A(): B() on
line 1 and def B(): A() on line 3. -/
def mutualModule : PyModule :=
  { functions := [("A", { lineno := 1, uses := ["B"] }), ("B", { lineno := 3, uses := ["A"] })],
    classes := [], assignments := [], imports := [], linecount := 3 }

/-- Environment holding the mutual-recursion file /repo/m.py. -/
def mutualEnv : Env :=
  { gitRoot := .ok "/repo",
    fs := fun p => if p = "/repo/m.py" then some mutualModule else none,
    builtinModules := [],
    resolveImport := fun _ _ => .ok [] }

/-- A function that only calls itself: def h(): h() on line 1. -/
def selfRecModule : PyModule :=
  { functions := [("h", { lineno := 1, uses := ["h"] })],
    classes := [], assignments := [], imports := [], linecount := 2 }

/-- Environment holding the self-recursive file /repo/s.py. -/
def selfRecEnv : Env :=
  { gitRoot := .ok "/repo",
    fs := fun p => if p = "/repo/s.py" then some selfRecModule else none,
    builtinModules := [],
    resolveImport := fun _ _ => .ok [] }

/-- A trivial project file /repo/w.py with one function t and no
imports. -/
def wModule : PyModule :=
  { functions := [("t", { lineno := 1, uses := [] })],
    classes := [], assignments := [], imports := [], linecount := 2 }

/-- Environment holding only /repo/w.py. -/
def wEnv : Env :=
  { gitRoot := .ok "/repo",
    fs := fun p => if p = "/repo/w.py" then some wModule else none,
    builtinModules := [],
    resolveImport := fun _ _ => .ok [] }

theorem mapGet_eq_nil_of_not_mem_keys (m : LinkedMap) (k : String) (h : k ∉ mapKeys m) :
    mapGet m k = [] := by
  induction m with
  | nil => rfl
  | cons p rest ih =>
    obtain ⟨k0, vs⟩ := p
    simp only [mapKeys, List.map_cons, List.mem_cons, not_or] at h
    simp only [mapGet, if_neg (fun hk : k0 = k => h.1 hk.symm)]
    exact ih h.2

theorem mem_keys_of_mem_mapGet {m : LinkedMap} {k v : String} (h : v ∈ mapGet m k) :
    k ∈ mapKeys m := by
  by_contra hk
  rw [mapGet_eq_nil_of_not_mem_keys m k hk] at h
  exact absurd h (List.not_mem_nil v)

theorem mem_appendValue_self (v : String) (vs : List String) : v ∈ appendValue v vs := by
  unfold appendValue
  by_cases h : v ∈ vs
  · simp [h]
  · simp [h]

theorem mem_appendValue_mono {w : String} {vs : List String} (v : String) (h : w ∈ vs) :
    w ∈ appendValue v vs := by
  unfold appendValue
  by_cases hv : v ∈ vs
  · simpa [hv] using h
  · simp [hv, List.mem_append, h]

theorem mem_mapGet_updateKey_self {m : LinkedMap} {k : String} (v : String)
    (h : k ∈ mapKeys m) : v ∈ mapGet (updateKey k v m) k := by
  induction m with
  | nil => simp [mapKeys] at h
  | cons p rest ih =>
    obtain ⟨k0, vs⟩ := p
    by_cases hk : k0 = k
    · simp only [updateKey, if_pos hk, mapGet, if_pos hk]
      exact mem_appendValue_self v vs
    · simp only [updateKey, if_neg hk, mapGet, if_neg hk]
      simp only [mapKeys, List.map_cons, List.mem_cons] at h
      exact ih (h.resolve_left (fun hkk => hk hkk.symm))

theorem mem_mapGet_add_self (k v : String) (m : LinkedMap) :
    v ∈ mapGet (add_key_and_value_to_linked_list k v m) k := by
  unfold add_key_and_value_to_linked_list
  by_cases h : k ∈ mapKeys m
  · simpa [h] using mem_mapGet_updateKey_self v h
  · rw [if_neg h]
    induction m with
    | nil => simp [mapGet]
    | cons p rest ih =>
      obtain ⟨k0, vs⟩ := p
      simp only [mapKeys, List.map_cons, List.mem_cons, not_or] at h
      simp only [List.cons_append, mapGet, if_neg (fun hk : k0 = k => h.1 hk.symm)]
      exact ih h.2

theorem mem_mapGet_updateKey_mono {m : LinkedMap} {k v : String} (k' v' : String)
    (h : v ∈ mapGet m k) : v ∈ mapGet (updateKey k' v' m) k := by
  induction m with
  | nil => simp [mapGet] at h
  | cons p rest ih =>
    obtain ⟨k0, vs⟩ := p
    by_cases hk' : k0 = k'
    · by_cases hk : k0 = k
      · simp only [mapGet, if_pos hk] at h
        simp only [updateKey, if_pos hk', mapGet, if_pos hk]
        exact mem_appendValue_mono v' h
      · simp only [mapGet, if_neg hk] at h
        simpa only [updateKey, if_pos hk', mapGet, if_neg hk] using h
    · by_cases hk : k0 = k
      · simp only [mapGet, if_pos hk] at h
        simpa only [updateKey, if_neg hk', mapGet, if_pos hk] using h
      · simp only [mapGet, if_neg hk] at h
        simp only [updateKey, if_neg hk', mapGet, if_neg hk]
        exact ih h

theorem mem_mapGet_append_left {m : LinkedMap} {k v : String} (l : LinkedMap)
    (h : v ∈ mapGet m k) : v ∈ mapGet (m ++ l) k := by
  induction m with
  | nil => simp [mapGet] at h
  | cons p rest ih =>
    obtain ⟨k0, vs⟩ := p
    by_cases hk : k0 = k
    · simp only [mapGet, if_pos hk] at h
      simpa only [List.cons_append, mapGet, if_pos hk] using h
    · simp only [mapGet, if_neg hk] at h
      simp only [List.cons_append, mapGet, if_neg hk]
      exact ih h

theorem mem_mapGet_add_mono {m : LinkedMap} {k v : String} (k' v' : String)
    (h : v ∈ mapGet m k) : v ∈ mapGet (add_key_and_value_to_linked_list k' v' m) k := by
  unfold add_key_and_value_to_linked_list
  by_cases hk' : k' ∈ mapKeys m
  · simpa [hk'] using mem_mapGet_updateKey_mono k' v' h
  · simpa [hk'] using mem_mapGet_append_left [(k', [v'])] h

theorem count_append_self (l : List String) (a : String) (h : a ∉ l) :
    (l ++ [a]).count a = 1 := by
  rw [List.count_append]
  simp [List.count_eq_zero.mpr h]

theorem dcb_changed_hit (env : Env) (root path obj : String) (st : DCState)
    (hch : (path ++ "::" ++ obj) ∉ st.chain)
    (hc : obj ∈ mapGet st.changeMap path) :
    dependencies_changed_body env root path obj st =
      ({ st with chain := st.chain ++ [path ++ "::" ++ obj],
                 visitedMap := add_key_and_value_to_linked_list path obj st.visitedMap },
       .ok true) := by
  have hcount := count_append_self st.chain (path ++ "::" ++ obj) hch
  simp only [dependencies_changed_body]
  rw [if_neg (fun h => by rw [hcount] at h; exact absurd h.2.2 (lt_irrefl 1))]
  rw [if_pos ⟨mem_keys_of_mem_mapGet hc, hc⟩]

theorem dcb_unchanged_hit (env : Env) (root path obj : String) (st : DCState)
    (hch : (path ++ "::" ++ obj) ∉ st.chain)
    (hc : obj ∉ mapGet st.changeMap path)
    (hu : obj ∈ mapGet st.unchangedMap path) :
    dependencies_changed_body env root path obj st =
      ({ st with visitedMap := add_key_and_value_to_linked_list path obj st.visitedMap },
       .ok false) := by
  have hcount := count_append_self st.chain (path ++ "::" ++ obj) hch
  simp only [dependencies_changed_body]
  rw [if_neg (fun h => by rw [hcount] at h; exact absurd h.2.2 (lt_irrefl 1))]
  rw [if_neg (fun h => hc h.2)]
  rw [if_pos ⟨mem_keys_of_mem_mapGet hu, hu⟩]
  simp

theorem dcb_outside_eq (env : Env) (root path obj : String) (st : DCState)
    (hch : (path ++ "::" ++ obj) ∉ st.chain)
    (hc : obj ∉ mapGet st.changeMap path)
    (hu : obj ∉ mapGet st.unchangedMap path)
    (hout : file_in_project root path = false) :
    dependencies_changed_body env root path obj st =
      ({ st with
          unchangedMap := add_key_and_value_to_linked_list path obj st.unchangedMap,
          visitedMap := add_key_and_value_to_linked_list path obj
            (add_key_and_value_to_linked_list path obj st.visitedMap) },
       .ok false) := by
  have hcount := count_append_self st.chain (path ++ "::" ++ obj) hch
  simp only [dependencies_changed_body]
  rw [if_neg (fun h => by rw [hcount] at h; exact absurd h.2.2 (lt_irrefl 1))]
  rw [if_neg (fun h => hc h.2)]
  rw [if_neg (fun h => hu h.2)]
  rw [if_pos hout]
  simp

theorem dcb_deep_err (env : Env) (root path obj : String) (st : DCState)
    (hin : file_in_project root path = true)
    (hc : obj ∉ mapGet st.changeMap path)
    (hu : obj ∉ mapGet st.unchangedMap path) :
    ∃ e, (dependencies_changed_body env root path obj st).2 = .error e := by
  simp only [dependencies_changed_body]
  by_cases hcyc : path ∈ mapKeys st.visitedMap ∧ obj ∈ mapGet st.visitedMap path ∧
      1 < (st.chain ++ [path ++ "::" ++ obj]).count (path ++ "::" ++ obj)
  · rw [if_pos hcyc]
    exact ⟨_, rfl⟩
  · rw [if_neg hcyc]
    rw [if_neg (fun h => hc h.2)]
    rw [if_neg (fun h => hu h.2)]
    rw [if_neg (fun h : file_in_project root path = false => by
      rw [hin] at h; exact Bool.noConfusion h)]
    rw [if_pos (mem_mapGet_add_self path obj st.visitedMap)]
    cases hfs : env.fs path with
    | none => exact ⟨_, rfl⟩
    | some mi =>
      cases him : importLoop env path mi.imports [] with
      | error e => simp [him]
      | ok acc => simp [him]

theorem dcb_deep_nameError (env : Env) (root path obj : String) (st : DCState)
    (mi : PyModule) (acc : LinkedMap)
    (hch : (path ++ "::" ++ obj) ∉ st.chain)
    (hin : file_in_project root path = true)
    (hc : obj ∉ mapGet st.changeMap path)
    (hu : obj ∉ mapGet st.unchangedMap path)
    (hfs : env.fs path = some mi)
    (him : importLoop env path mi.imports [] = .ok acc) :
    (dependencies_changed_body env root path obj st).2 =
      .error (.nameError "BaseClassNameExtractor") := by
  have hcount := count_append_self st.chain (path ++ "::" ++ obj) hch
  simp only [dependencies_changed_body]
  rw [if_neg (fun h => by rw [hcount] at h; exact absurd h.2.2 (lt_irrefl 1))]
  rw [if_neg (fun h => hc h.2)]
  rw [if_neg (fun h => hu h.2)]
  rw [if_neg (fun h : file_in_project root path = false => by
    rw [hin] at h; exact Bool.noConfusion h)]
  rw [if_pos (mem_mapGet_add_self path obj st.visitedMap)]
  simp [hfs, him]

theorem push_packages_eq (packages syspath : List String) :
    push_packages packages syspath = packages.reverse ++ syspath := by
  induction packages generalizing syspath with
  | nil => simp [push_packages]
  | cons p ps ih =>
    show push_packages ps (p :: syspath) = (p :: ps).reverse ++ syspath
    rw [ih]
    simp

theorem pop_front_n_eq (n : Nat) (l : List String) :
    pop_front_n n l = (l.take n, l.drop n) := by
  induction n generalizing l with
  | zero => simp [pop_front_n]
  | succ k ih =>
    cases l with
    | nil => simp [pop_front_n]
    | cons x rest => simp [pop_front_n, ih]

/-- Claim C1.  In the a.py scenario (def f on line 1, def g calling f on
line 3, changed-line set containing only line 1) the changed-member
locator does return exactly the list with the single name f; but the
dependency walk for g does not return true with the claimed chain: it
raises NameError on the undefined name BaseClassNameExtractor
(helpers.py 524) before producing any verdict. -/
theorem scenario_a_locator_and_walk :
    find_changed_members aPyModule [(1, 2)] = ["f"] ∧
    (dependencies_changed scenarioEnvA "/repo/a.py" "g" scenarioStateA).2 =
      .error (.nameError "BaseClassNameExtractor") :=
  ⟨rfl, rfl⟩

/-- Claim C2.  A changed-line set contained in the span of the single
top-level symbol ab and disjoint from every other span does not produce
the one-element list with the full name ab: line 383 of helpers.py
extends the result list with the name, which appends its characters, so
the locator yields the two one-character strings a and b and the full
name ab never appears. -/
theorem find_changed_members_extends_characters :
    find_changed_members twoCharModule [(1, 2)] = ["a", "b"] ∧
    "ab" ∉ find_changed_members twoCharModule [(1, 2)] :=
  ⟨rfl, by decide⟩

/-- Claim C3.  For the file with def A(): B() and def B(): A(), neither
locally changed, the query on (m.py, A) does not raise the
dependency-cycle exception: it raises NameError on the undefined name
BaseClassNameExtractor (helpers.py 524) during the first call, before
any recursion can revisit a pair. -/
theorem mutual_recursion_walk_raises_nameError :
    (dependencies_changed mutualEnv "/repo/m.py" "A" emptyState).2 =
      .error (.nameError "BaseClassNameExtractor") :=
  rfl

/-- Claim C4.  With the pair not already on the chain, a query on a pair
memoized in change_map returns true, and one memoized in unchanged_map
(and not in change_map) returns false; in both cases the result is
identical under any change of the file system and import machinery, so
the file is neither read nor re-parsed; and every write to a memo dict
goes through add_key_and_value_to_linked_list, which preserves every
entry already present, so a memo entry is never overwritten. -/
theorem dependencies_changed_memo_hit (env env' : Env) (path obj root : String) (st : DCState)
    (hg : env.gitRoot = .ok root) (hg' : env'.gitRoot = .ok root)
    (hch : (path ++ "::" ++ obj) ∉ st.chain) :
    ((obj ∈ mapGet st.changeMap path →
        (dependencies_changed env path obj st).2 = .ok true ∧
        dependencies_changed env path obj st = dependencies_changed env' path obj st) ∧
     (obj ∉ mapGet st.changeMap path → obj ∈ mapGet st.unchangedMap path →
        (dependencies_changed env path obj st).2 = .ok false ∧
        dependencies_changed env path obj st = dependencies_changed env' path obj st)) ∧
    ∀ (m : LinkedMap) (k v k' v' : String), v ∈ mapGet m k →
      v ∈ mapGet (add_key_and_value_to_linked_list k' v' m) k := by
  refine ⟨⟨fun hc => ?_, fun hc hu => ?_⟩,
    fun m k v k' v' hv => mem_mapGet_add_mono k' v' hv⟩
  · have h1 := dcb_changed_hit env root path obj st hch hc
    have h2 := dcb_changed_hit env' root path obj st hch hc
    simp only [dependencies_changed, hg, hg']
    rw [h1, h2]
    exact ⟨rfl, rfl⟩
  · have h1 := dcb_unchanged_hit env root path obj st hch hc hu
    have h2 := dcb_unchanged_hit env' root path obj st hch hc hu
    simp only [dependencies_changed, hg, hg']
    rw [h1, h2]
    exact ⟨rfl, rfl⟩

/-- Witness for claim C4: in the a.py scenario state, the pair
(/repo/a.py, f) is memoized changed, and the query answers true
independently of the file system. -/
theorem dependencies_changed_memo_hit_witness :
    (dependencies_changed scenarioEnvA "/repo/a.py" "f" scenarioStateA).2 = .ok true ∧
    dependencies_changed scenarioEnvA "/repo/a.py" "f" scenarioStateA =
      dependencies_changed scenarioEnvNoFs "/repo/a.py" "f" scenarioStateA :=
  (dependencies_changed_memo_hit scenarioEnvA scenarioEnvNoFs "/repo/a.py" "f" "/repo"
    scenarioStateA rfl rfl (by decide)).1.1 (by decide)

/-- Claim C5.  Every query on a pair that is memoized neither changed
nor unchanged and whose file lies inside the project root raises an
exception before returning any boolean verdict; and whenever the file is
readable, the import loop succeeds and the pair is not already on the
chain, that exception is precisely the NameError on the undefined name
BaseClassNameExtractor of helpers.py 524 (the first of the undefined
names BaseClassNameExtractor, obj, definition_nodes and
ObjectNameExtractor that the traversal body references). -/
theorem dependencies_changed_unmemoized_raises (env : Env) (path obj root : String) (st : DCState)
    (hg : env.gitRoot = .ok root)
    (hin : file_in_project root path = true)
    (hc : obj ∉ mapGet st.changeMap path)
    (hu : obj ∉ mapGet st.unchangedMap path) :
    (∃ e, (dependencies_changed env path obj st).2 = .error e) ∧
    (∀ (mi : PyModule) (acc : LinkedMap), env.fs path = some mi →
      importLoop env path mi.imports [] = .ok acc →
      (path ++ "::" ++ obj) ∉ st.chain →
      (dependencies_changed env path obj st).2 =
        .error (.nameError "BaseClassNameExtractor")) := by
  constructor
  · simp only [dependencies_changed, hg]
    exact dcb_deep_err env root path obj st hin hc hu
  · intro mi acc hfs him hch
    simp only [dependencies_changed, hg]
    exact dcb_deep_nameError env root path obj st mi acc hch hin hc hu hfs him

/-- Witness for claim C5: the fresh query on (/repo/w.py, t) raises the
NameError on BaseClassNameExtractor. -/
theorem dependencies_changed_unmemoized_raises_witness :
    (dependencies_changed wEnv "/repo/w.py" "t" emptyState).2 =
      .error (.nameError "BaseClassNameExtractor") :=
  (dependencies_changed_unmemoized_raises wEnv "/repo/w.py" "t" "/repo" emptyState
    rfl rfl (by decide) (by decide)).2 wModule [] rfl rfl (by decide)

/-- Claim C6.  The query on the function h that only calls itself, not
locally changed, does not return false: it raises NameError on the
undefined name BaseClassNameExtractor (helpers.py 524) before the
used-names loop with its self-reference exclusion (helpers.py 550-551)
can run. -/
theorem self_recursive_walk_raises_nameError :
    (dependencies_changed selfRecEnv "/repo/s.py" "h" emptyState).2 =
      .error (.nameError "BaseClassNameExtractor") :=
  rfl

/-- Claim C7.  For the hunk header with two numeric pairs and no
explicit counts, the missing count defaults to 0 (helpers.py 280-291),
not 1, so both derived ranges are the empty ranges with start equal to
stop rather than the one-line ranges the claim states. -/
theorem modified_hunk_missing_count_defaults_zero :
    modified_file_ranges "@@ -5 +7 @@" = .ok [(5, 5), (7, 7)] ∧
    ([(5, 5), (7, 7)] : List (Nat × Nat)) ≠ [(5, 6), (7, 8)] :=
  ⟨rfl, by decide⟩

/-- Claim C8.  The diff header with preimage pair 2,0 and postimage pair
3,4 on a modified file yields exactly the empty preimage range from 2 to
2 and the postimage range from 3 to 7. -/
theorem modified_hunk_ranges_preimage_postimage :
    modified_file_ranges "@@ -2,0 +3,4 @@" = .ok [(2, 2), (3, 7)] :=
  rfl

/-- Counterexample for claim C9.  With packages p1 then p2 pushed in
that order, _revert_syspath pops p2 first and p1 second: the removal
order is the reverse of the original insertion order, not the insertion
order the claim states. -/
theorem revert_syspath_pop_order_counterexample :
    (pop_front_n 2 (push_packages ["p1", "p2"] ["site"])).1 = ["p2", "p1"] ∧
    (pop_front_n 2 (push_packages ["p1", "p2"] ["site"])).1 ≠ ["p1", "p2"] := by
  constructor
  · rfl
  · decide

/-- Claim C9 as amended.  On every exit path of run, normal or
exceptional, the package paths pushed at the start are all removed
again, exactly once each but in reverse insertion order, so the
module-search path after the run equals its pre-run state. -/
theorem run_syspath_restored (packages syspath : List String) (body : Except PyErr Unit) :
    (run_syspath packages syspath body).2 = syspath ∧
    (pop_front_n packages.length (push_packages packages syspath)).1 = packages.reverse := by
  have hlen : packages.reverse.length = packages.length := List.length_reverse packages
  constructor
  · cases body with
    | ok u =>
      cases u
      simp only [run_syspath, pop_front_n_eq, push_packages_eq]
      exact List.drop_left' hlen
    | error e =>
      simp only [run_syspath, pop_front_n_eq, push_packages_eq]
      exact List.drop_left' hlen
  · rw [pop_front_n_eq, push_packages_eq]
    exact List.take_left' hlen

/-- Claim C10.  A query on a pair whose file lies outside the project
root, with the pair not memoized changed and not already on the chain,
returns false, leaves the pair memoized unchanged, and produces a result
identical under any change of the file system and import machinery, so
the file is never read or parsed and its dependencies are never
recursed into. -/
theorem dependencies_changed_outside_project (env env' : Env) (path obj root : String)
    (st : DCState)
    (hg : env.gitRoot = .ok root) (hg' : env'.gitRoot = .ok root)
    (hch : (path ++ "::" ++ obj) ∉ st.chain)
    (hc : obj ∉ mapGet st.changeMap path)
    (hout : file_in_project root path = false) :
    (dependencies_changed env path obj st).2 = .ok false ∧
    obj ∈ mapGet (dependencies_changed env path obj st).1.unchangedMap path ∧
    dependencies_changed env path obj st = dependencies_changed env' path obj st := by
  by_cases hu : obj ∈ mapGet st.unchangedMap path
  · have h1 := dcb_unchanged_hit env root path obj st hch hc hu
    have h2 := dcb_unchanged_hit env' root path obj st hch hc hu
    simp only [dependencies_changed, hg, hg']
    rw [h1, h2]
    exact ⟨rfl, hu, rfl⟩
  · have h1 := dcb_outside_eq env root path obj st hch hc hu hout
    have h2 := dcb_outside_eq env' root path obj st hch hc hu hout
    simp only [dependencies_changed, hg, hg']
    rw [h1, h2]
    exact ⟨rfl, mem_mapGet_add_self path obj st.unchangedMap, rfl⟩

/-- Witness for claim C10: a query on a file under /usr/lib, outside
the project root /repo, answers false and memoizes the pair unchanged
without consulting the file system. -/
theorem dependencies_changed_outside_project_witness :
    (dependencies_changed wEnv "/usr/lib/x.py" "q" emptyState).2 = .ok false ∧
    "q" ∈ mapGet (dependencies_changed wEnv "/usr/lib/x.py" "q" emptyState).1.unchangedMap
      "/usr/lib/x.py" :=
  ⟨(dependencies_changed_outside_project wEnv scenarioEnvNoFs "/usr/lib/x.py" "q" "/repo"
      emptyState rfl rfl (by decide) (by decide) (by decide)).1,
   (dependencies_changed_outside_project wEnv scenarioEnvNoFs "/usr/lib/x.py" "q" "/repo"
      emptyState rfl rfl (by decide) (by decide) (by decide)).2.1⟩

end SmartCollect
